import Mathlib

/-!
Verification of the RewardLoop loyalty-ledger core.

This file shallowly embeds the Redux reducers and integration hooks of the
RewardLoop client: the loyalty slice (`earnPoints`, `setLoyaltyData`,
`resetLoyalty`), the favorites slice (`addFavorite`, `removeFavorite`), the
products filter (`filterProducts`), the AsyncStorage helpers
(`saveLoyaltyData`, `loadLoyaltyData`), and the screen-level handlers
(`handleLogin`, `handleToggleFavorite`, `logoutUser`).

JavaScript numbers holding point totals are modelled as `Int`; millisecond
timestamps (`Date.now()`) are explicit `Nat` parameters, so `Date.now().toString()`
becomes `Nat.repr`.  `new Date(t).toISOString()` is modelled abstractly as an
injective rendering of the timestamp.  AsyncStorage is a string-keyed
map to strings, with failure of a read or write supplied as an explicit outcome.
-/

namespace RewardLoop

/-- String constants (`src/src/utils/constants.js` and screen literals). -/
def loginBonusType : String := "LOGIN_BONUS"

def favoriteAddedType : String := "FAVORITE_ADDED"

def loginBonusDesc : String := "Welcome bonus for logging in"

def favoritedTag : String := "Favorited: "

def authTokenKey : String := "@RewardLoop:authToken"

def userDataKey : String := "@RewardLoop:userData"

def favoritesKey : String := "@RewardLoop:favorites"

def loyaltyDataKey : String := "@RewardLoop:loyaltyData"

def categoryAll : String := "all"

def emptyStr : String := ""

/-- `LOYALTY_POINTS.LOGIN_BONUS` (`src/src/utils/constants.js`). -/
def loginBonusPoints : Int := 5

/-- `LOYALTY_POINTS.FAVORITE_ADDED` (`src/src/utils/constants.js`). -/
def favoriteAddedPoints : Int := 10

/-- Model of `new Date(t).toISOString()`: an injective rendering of the
millisecond timestamp (the exact ISO format is irrelevant to the claims). -/
def isoString (t : Nat) : String := Nat.repr t

/-- One entry of `state.transactions` in the loyalty slice
(`src/src/redux/slices/loyaltySlice.js`). -/
structure Transaction where
  id : String
  type : String
  points : Int
  description : String
  date : String
  deriving DecidableEq, Repr

/-- Payload of the `earnPoints` action: `{ type, points, description? }`.
An absent `description` is `none`; a supplied string is `some`. -/
structure EarnPayload where
  type : String
  points : Int
  description : Option String
  deriving DecidableEq, Repr

/-- The loyalty slice state `{ points, transactions }`. -/
structure LoyaltyState where
  points : Int
  transactions : List Transaction
  deriving DecidableEq, Repr

/-- `initialState` of the loyalty slice: `{ points: 0, transactions: [] }`. -/
def loyaltyInitialState : LoyaltyState := { points := 0, transactions := [] }

/-- JavaScript `description || type`: a missing or empty (falsy) string
falls back to `type`. -/
def descOrType (d : Option String) (ty : String) : String :=
  match d with
  | none => ty
  | some s => if s = emptyStr then ty else s

/-- The `earnPoints` reducer (`loyaltySlice.js` lines 30-40).
`state.points += points`, then `unshift` a new transaction whose `id` is
`Date.now().toString()` and whose `date` is the current ISO timestamp;
`now` is the millisecond clock value at dispatch time. -/
def earnPoints (state : LoyaltyState) (payload : EarnPayload) (now : Nat) :
    LoyaltyState :=
  { points := state.points + payload.points
    transactions :=
      { id := Nat.repr now
        type := payload.type
        points := payload.points
        description := descOrType payload.description payload.type
        date := isoString now } :: state.transactions }

/-- The `setLoyaltyData` reducer (`loyaltySlice.js` lines 43-46): hydrate
points and transactions wholesale from the payload. -/
def setLoyaltyData (state : LoyaltyState) (payload : LoyaltyState) :
    LoyaltyState :=
  { state with points := payload.points, transactions := payload.transactions }

/-- The `resetLoyalty` reducer (`loyaltySlice.js` line 49): back to the
initial state. -/
def resetLoyalty (_state : LoyaltyState) : LoyaltyState := loyaltyInitialState

/-- An action dispatched to the loyalty reducer, with the millisecond clock
value at dispatch time attached to `earn`. -/
inductive LoyaltyAction where
  | earn (payload : EarnPayload) (now : Nat)
  | hydrate (payload : LoyaltyState)
  | reset
  deriving DecidableEq, Repr

/-- Dispatch one action through the loyalty reducer. -/
def applyAction (state : LoyaltyState) : LoyaltyAction → LoyaltyState
  | .earn payload now => earnPoints state payload now
  | .hydrate payload => setLoyaltyData state payload
  | .reset => resetLoyalty state

/-- Run a sequence of actions from the initial empty ledger. -/
def runActions (acts : List LoyaltyAction) : LoyaltyState :=
  acts.foldl applyAction loyaltyInitialState

/-- An action is an `earnPoints` dispatch with a positive payload, or a
`resetLoyalty` dispatch. -/
def earnPosOrReset : LoyaltyAction → Bool
  | .earn payload _ => 0 < payload.points
  | .hydrate _ => false
  | .reset => true

/-- The ledger invariant: the running total equals the sum of the `points`
fields over the transaction history. -/
def sumInv (s : LoyaltyState) : Prop :=
  s.points = (s.transactions.map Transaction.points).sum

instance (s : LoyaltyState) : Decidable (sumInv s) := by
  unfold sumInv; infer_instance

/-- The ids of distinct transactions in the history are pairwise different. -/
def idsDistinct (s : LoyaltyState) : Prop :=
  s.transactions.Pairwise (fun a b => a.id ≠ b.id)

instance (s : LoyaltyState) : Decidable (idsDistinct s) := by
  unfold idsDistinct; infer_instance

/-- Whether an action is an `earnPoints` dispatch. -/
def isEarn : LoyaltyAction → Bool
  | .earn _ _ => true
  | _ => false

/-- The dispatch timestamps of the `earnPoints` actions of a sequence. -/
def earnTimes : List LoyaltyAction → List Nat
  | [] => []
  | .earn _ now :: rest => now :: earnTimes rest
  | _ :: rest => earnTimes rest

/-! ## Products and favorites (`productsSlice.js`, `favoritesSlice.js`) -/

/-- The fields of a FakeStore product record that the reducers inspect. -/
structure Product where
  id : Nat
  title : String
  category : String
  deriving DecidableEq, Repr

/-- The parts of the products slice state that `filterProducts` uses. -/
structure ProductsState where
  items : List Product
  filteredItems : List Product
  searchQuery : String
  selectedCategory : String
  deriving DecidableEq, Repr

/-- Model of JavaScript `String.prototype.trim`: drop leading and trailing
whitespace. -/
def jsTrim (s : String) : String :=
  String.mk
    (((s.data.dropWhile Char.isWhitespace).reverse.dropWhile
      Char.isWhitespace).reverse)

/-- JavaScript `haystack.includes needle` on strings: `needle` occurs as a
contiguous substring of `haystack` (true for the empty needle). -/
def strIncludes (haystack needle : String) : Bool :=
  includesAux haystack.data needle.data
where
  /-- Does `q` start at some position of `s`? -/
  includesAux : List Char → List Char → Bool
  | s, q =>
    startsWith s q ||
      match s with
      | [] => false
      | _ :: rest => includesAux rest q
  /-- Does `q` occur at the head of `s`? -/
  startsWith : List Char → List Char → Bool
  | _, [] => true
  | [], _ :: _ => false
  | a :: s, b :: q => a == b && startsWith s q

/-- The `filterProducts` reducer (`productsSlice.js` lines 77-96): category
filter (skipped when the selected category is `all`) then case-insensitive
title search (skipped when the trimmed query is empty). -/
def filterProducts (st : ProductsState) : ProductsState :=
  let afterCategory :=
    if st.selectedCategory = categoryAll then st.items
    else st.items.filter (fun item => item.category == st.selectedCategory)
  let afterSearch :=
    if jsTrim st.searchQuery = emptyStr then afterCategory
    else
      afterCategory.filter (fun item =>
        strIncludes item.title.toLower (jsTrim st.searchQuery.toLower))
  { st with filteredItems := afterSearch }

/-- The combined membership predicate the claims describe: category matches
(or `all` is selected) and, when the trimmed query is non-empty, the
lowercased title contains the lowercased trimmed query. -/
def filterPred (st : ProductsState) (item : Product) : Bool :=
  (st.selectedCategory == categoryAll || item.category == st.selectedCategory)
    && (jsTrim st.searchQuery == emptyStr
      || strIncludes item.title.toLower (jsTrim st.searchQuery.toLower))

/-- The `addFavorite` reducer (`favoritesSlice.js`): push unless a product
with the same id is already present. -/
def addFavorite (items : List Product) (payload : Product) : List Product :=
  match items.find? (fun item => item.id == payload.id) with
  | some _ => items
  | none => items ++ [payload]

/-- The `removeFavorite` reducer (`favoritesSlice.js` lines 148-150): keep
the products whose id differs from the payload id. -/
def removeFavorite (items : List Product) (payloadId : Nat) : List Product :=
  items.filter (fun item => item.id != payloadId)

/-- The `isFavorite` selector of `ProductDetailScreen.js`: some favorited
item has the id of the product. -/
def isFavorite (favorites : List Product) (product : Product) : Bool :=
  favorites.any (fun item => item.id == product.id)

/-! ## AsyncStorage model and the persistence helpers (`storage.js`) -/

/-- AsyncStorage: a string-keyed finite map of strings. -/
def Storage : Type := String → Option String

/-- A store holding nothing. -/
def emptyStorage : Storage := fun _ => none

/-- `AsyncStorage.setItem`. -/
def setItem (st : Storage) (key value : String) : Storage :=
  fun q => if q = key then some value else st q

/-- `AsyncStorage.removeItem`. -/
def removeItem (st : Storage) (key : String) : Storage :=
  fun q => if q = key then none else st q

/-- `AsyncStorage.multiRemove`. -/
def multiRemove (st : Storage) (keys : List String) : Storage :=
  keys.foldl removeItem st

/-- `saveLoyaltyData` (`storage.js` lines 47-56): serialize the snapshot and
`setItem` it under the loyalty key; a write failure (`writeOk = false`,
modelling the thrown exception) is caught, logged, and swallowed, leaving the
store unchanged.  The helper never touches the in-memory ledger (it does not
even receive it) and never propagates an error. -/
def saveLoyaltyData (st : Storage) (writeOk : Bool)
    (stringify : LoyaltyState → String) (data : LoyaltyState) : Storage :=
  if writeOk then setItem st loyaltyDataKey (stringify data) else st

/-- `loadLoyaltyData` (`storage.js` lines 62-70): read the loyalty key and
parse it; a read failure (`Except.error`, modelling the thrown exception), an
absent or empty value, or a parse failure all yield the default
`{ points: 0, transactions: [] }`. -/
def loadLoyaltyData (read : Except Unit (Option String))
    (parse : String → Except Unit LoyaltyState) : LoyaltyState :=
  match read with
  | .error _ => loyaltyInitialState
  | .ok none => loyaltyInitialState
  | .ok (some json) =>
    if json = emptyStr then loyaltyInitialState
    else
      match parse json with
      | .error _ => loyaltyInitialState
      | .ok data => data

/-! ## Auth slice and logout (`authSlice.js`) -/

/-- The auth slice state. -/
structure AuthState where
  token : Option String
  user : Option String
  isLoggedIn : Bool
  loading : Bool
  error : Option String
  deriving DecidableEq, Repr

/-- `initialState` of the auth slice. -/
def authInitialState : AuthState :=
  { token := none, user := none, isLoggedIn := false, loading := false
    error := none }

/-- The `logoutUser` thunk together with its `fulfilled` reducer
(`authSlice.js`): `AsyncStorage.multiRemove([AUTH_TOKEN, USER_DATA])` and the
auth slice returns to its initial state.  No loyalty action is dispatched and
no other storage key is touched, so the loyalty state is passed through. -/
def logoutUser (st : Storage) (_auth : AuthState) (loyalty : LoyaltyState) :
    Storage × AuthState × LoyaltyState :=
  (multiRemove st [authTokenKey, userDataKey], authInitialState, loyalty)

/-! ## Screen handlers (`LoginScreen.js`, `ProductDetailScreen.js`) -/

/-- The `earnPoints` payload dispatched by `handleLogin` on a fulfilled
login. -/
def loginPayload : EarnPayload :=
  { type := loginBonusType, points := loginBonusPoints
    description := some loginBonusDesc }

/-- The `earnPoints` payload dispatched by `handleToggleFavorite` when a
product is favorited. -/
def favPayload (product : Product) : EarnPayload :=
  { type := favoriteAddedType, points := favoriteAddedPoints
    description := some (favoritedTag ++ product.title) }

/-- The snapshot `handleLogin` (`LoginScreen.js` lines 55-64) passes to
`saveLoyaltyData` after a fulfilled login: a fixed total of
`LOYALTY_POINTS.LOGIN_BONUS` and a single freshly built login transaction,
with `now` the clock value at the `Date.now()` call inside the literal. -/
def loginSnapshot (now : Nat) : LoyaltyState :=
  { points := loginBonusPoints
    transactions :=
      [{ id := Nat.repr now
         type := loginBonusType
         points := loginBonusPoints
         description := loginBonusDesc
         date := isoString now }] }

/-- The snapshot the delayed `setTimeout` callback of `handleToggleFavorite`
(`ProductDetailScreen.js` lines 72-88) passes to `saveLoyaltyData`: built
from the captured pre-dispatch loyalty state, adding the award to the total
and prepending a freshly rebuilt transaction, with `now` the clock value at
the `Date.now()` call inside the callback. -/
def favSnapshot (loyalty : LoyaltyState) (product : Product) (now : Nat) :
    LoyaltyState :=
  { points := loyalty.points + favoriteAddedPoints
    transactions :=
      { id := Nat.repr now
        type := favoriteAddedType
        points := favoriteAddedPoints
        description := favoritedTag ++ product.title
        date := isoString now } :: loyalty.transactions }

/-- The favorites-and-loyalty portion of the Redux store that
`handleToggleFavorite` reads and writes. -/
structure AppState where
  favorites : List Product
  loyalty : LoyaltyState
  deriving DecidableEq, Repr

/-- `handleToggleFavorite` (`ProductDetailScreen.js` lines 52-90), restricted
to its Redux dispatches: when the product is already favorited it dispatches
`removeFavorite` only; otherwise it dispatches `addFavorite` and `earnPoints`.
Returns the updated store together with the list of `earnPoints` payloads
dispatched, so the theorems can count ledger mutations. -/
def handleToggleFavorite (st : AppState) (product : Product) (now : Nat) :
    AppState × List EarnPayload :=
  if isFavorite st.favorites product then
    ({ st with favorites := removeFavorite st.favorites product.id }, [])
  else
    ({ favorites := addFavorite st.favorites product
       loyalty := earnPoints st.loyalty (favPayload product) now },
      [favPayload product])

/-- The fulfilled branch of `handleLogin` (`LoginScreen.js` lines 47-65):
dispatch `earnPoints` with the login payload at clock value `tDispatch`, and
call `saveLoyaltyData` with the fixed snapshot built at clock value `tSave`.
Returns the updated loyalty state and the written store. -/
def handleLogin (loyalty : LoyaltyState) (st : Storage) (writeOk : Bool)
    (stringify : LoyaltyState → String) (tDispatch tSave : Nat) :
    LoyaltyState × Storage :=
  (earnPoints loyalty loginPayload tDispatch,
    saveLoyaltyData st writeOk stringify (loginSnapshot tSave))

/-! ## Decimal decoding, to recover a timestamp from a transaction id -/

/-- Fold step consuming one decimal digit character. -/
def digitStep (acc : Nat) (c : Char) : Nat := acc * 10 + (c.toNat - 48)

/-- Decode a decimal numeral string back to the number it denotes. -/
def decodeDec (s : String) : Nat := s.data.foldl digitStep 0

/-! ## Concrete sample data used by witnesses and counterexamples -/

/-- A sample transaction (mirroring the hydrate fixture of the unit test). -/
def sampleTx : Transaction :=
  { id := Nat.repr 1, type := loginBonusType, points := 5
    description := loginBonusDesc, date := isoString 1 }

/-- A sample product record. -/
def sampleProduct : Product :=
  { id := 1, title := "Sample Backpack", category := "bags" }

/-- A second sample product record with a different id. -/
def sampleProduct2 : Product :=
  { id := 2, title := "Sample Jacket", category := "clothing" }

/-- An `earnPoints` payload that supplies an explicitly empty description. -/
def emptyDescPayload : EarnPayload :=
  { type := loginBonusType, points := 1, description := some emptyStr }

/-- A sample auth token value. -/
def sampleToken : String := "token-abc"

/-- A sample serialized user value. -/
def sampleUser : String := "user-emilys"

/-- A sample serialized loyalty snapshot value. -/
def sampleLoyaltyJson : String := "persisted-loyalty-json"

/-- A logged-in auth state. -/
def sampleAuth : AuthState :=
  { token := some sampleToken, user := some sampleUser, isLoggedIn := true
    loading := false, error := none }

/-- A store holding an auth token, user data, and a loyalty snapshot. -/
def sampleStorage : Storage :=
  setItem (setItem (setItem emptyStorage authTokenKey sampleToken)
    userDataKey sampleUser) loyaltyDataKey sampleLoyaltyJson

/-- A non-empty ledger state with five points in one transaction. -/
def sampleLoyalty : LoyaltyState := { points := 5, transactions := [sampleTx] }

/-- A hydrated ledger whose total does not match its single transaction. -/
def priorLoyalty : LoyaltyState := { points := 100, transactions := [sampleTx] }

/-- A serializer stub (its output is irrelevant to the claims checked). -/
def constStringify : LoyaltyState → String := fun _ => emptyStr

/-- A parser stub that always fails, modelling `JSON.parse` throwing. -/
def failParse : String → Except Unit LoyaltyState := fun _ => Except.error ()

/-- A concrete earn/reset action sequence with positive payloads. -/
def wActs : List LoyaltyAction :=
  [LoyaltyAction.earn loginPayload 0, LoyaltyAction.reset,
    LoyaltyAction.earn (favPayload sampleProduct) 1]

/-- A concrete all-earn action sequence with distinct timestamps. -/
def wEarnActs : List LoyaltyAction :=
  [LoyaltyAction.earn loginPayload 0,
    LoyaltyAction.earn (favPayload sampleProduct) 1]

/-- A concrete all-earn action sequence with a repeated timestamp. -/
def clashActs : List LoyaltyAction :=
  [LoyaltyAction.earn loginPayload 0,
    LoyaltyAction.earn (favPayload sampleProduct) 0]

/-- An app state in which the sample product is already favorited. -/
def favState : AppState :=
  { favorites := [sampleProduct], loyalty := sampleLoyalty }

/-- An app state in which nothing is favorited. -/
def noFavState : AppState :=
  { favorites := [], loyalty := loyaltyInitialState }

/-- A products state with one item, a blank query, and every category. -/
def sampleProductsState : ProductsState :=
  { items := [sampleProduct, sampleProduct2], filteredItems := []
    searchQuery := emptyStr, selectedCategory := categoryAll }

/-! ## Lemmas: decimal rendering is injective -/

theorem digitStep_digitChar (acc d : Nat) (h : d < 10) :
    digitStep acc (Nat.digitChar d) = acc * 10 + d := by
  interval_cases d <;> rfl

theorem toDigitsCore_decode :
    ∀ (f n : Nat) (l : List Char) (acc : Nat), n < f →
      ∃ e : Nat, (Nat.toDigitsCore 10 f n l).foldl digitStep acc =
        l.foldl digitStep (acc * 10 ^ e + n) := by
  intro f
  induction f with
  | zero => intro n l acc h; omega
  | succ f ih =>
    intro n l acc hn
    by_cases h10 : n / 10 = 0
    · refine ⟨1, ?_⟩
      simp only [Nat.toDigitsCore, h10, if_true]
      rw [List.foldl_cons, digitStep_digitChar _ _ (by omega)]
      have hmod : n % 10 = n := by omega
      rw [hmod, pow_one]
    · have hlt : n / 10 < f := by omega
      obtain ⟨e, he⟩ := ih (n / 10) (Nat.digitChar (n % 10) :: l) acc hlt
      refine ⟨e + 1, ?_⟩
      simp only [Nat.toDigitsCore, h10, if_false]
      rw [he, List.foldl_cons, digitStep_digitChar _ _ (by omega)]
      have hlin : ∀ A : Nat, (A + n / 10) * 10 + n % 10 = A * 10 + n := by
        intro A; omega
      rw [hlin, pow_succ, ← mul_assoc]

theorem decodeDec_repr (n : Nat) : decodeDec (Nat.repr n) = n := by
  obtain ⟨e, he⟩ :=
    toDigitsCore_decode (n + 1) n [] 0 (Nat.lt_succ_self n)
  have hdata : (Nat.repr n).data = Nat.toDigitsCore 10 (n + 1) n [] := rfl
  show (Nat.repr n).data.foldl digitStep 0 = n
  rw [hdata, he]
  simp

theorem repr_injective : Function.Injective Nat.repr := by
  intro a b h
  have ha := decodeDec_repr a
  rw [h] at ha
  exact ha.symm.trans (decodeDec_repr b)

/-! ## Lemmas: the ledger sum invariant is preserved -/

theorem sumInv_applyAction (s : LoyaltyState) (a : LoyaltyAction)
    (hok : earnPosOrReset a = true) (hs : sumInv s) :
    sumInv (applyAction s a) := by
  cases a with
  | earn payload now =>
    simp only [applyAction, sumInv, earnPoints, List.map_cons, List.sum_cons]
    simp only [sumInv] at hs
    omega
  | hydrate payload => simp [earnPosOrReset] at hok
  | reset =>
    simp [applyAction, resetLoyalty, sumInv, loyaltyInitialState]

theorem sumInv_foldl (acts : List LoyaltyAction) :
    ∀ s : LoyaltyState, acts.all earnPosOrReset = true → sumInv s →
      sumInv (acts.foldl applyAction s) := by
  induction acts with
  | nil => intro s _ hs; exact hs
  | cons a rest ih =>
    intro s hall hs
    rw [List.all_cons, Bool.and_eq_true] at hall
    exact ih _ hall.2 (sumInv_applyAction s a hall.1 hs)

/-- C1: over any sequence of positive `earnPoints` actions and `resetLoyalty`
actions from the empty initial ledger, the total equals the sum of the
transaction points, and no action other than a reset ever decreases the
total. -/
theorem c1_ledger_invariant (acts : List LoyaltyAction)
    (h : acts.all earnPosOrReset = true) :
    sumInv (runActions acts) ∧
      ∀ (s : LoyaltyState) (a : LoyaltyAction), a ∈ acts →
        a ≠ LoyaltyAction.reset → s.points ≤ (applyAction s a).points := by
  constructor
  · exact sumInv_foldl acts loyaltyInitialState h
      (by simp [sumInv, loyaltyInitialState])
  · intro s a ha hne
    have hok : earnPosOrReset a = true := List.all_eq_true.mp h a ha
    cases a with
    | earn payload now =>
      simp only [earnPosOrReset, decide_eq_true_eq] at hok
      simp only [applyAction, earnPoints]
      omega
    | hydrate payload => simp [earnPosOrReset] at hok
    | reset => exact absurd rfl hne

/-- Witness for C1 at a concrete earn/reset/earn sequence. -/
theorem c1_ledger_invariant_witness :
    wActs.all earnPosOrReset = true ∧
      (sumInv (runActions wActs) ∧
        ∀ (s : LoyaltyState) (a : LoyaltyAction), a ∈ wActs →
          a ≠ LoyaltyAction.reset → s.points ≤ (applyAction s a).points) :=
  ⟨by decide, c1_ledger_invariant wActs (by decide)⟩

/-- C2 as stated fails on a payload that supplies the empty string as its
description: the recorded description is the payload type, not the supplied
(empty) description. -/
theorem c2_counterexample :
    ((earnPoints loyaltyInitialState emptyDescPayload 0).transactions.map
      Transaction.description) ≠ [emptyStr] := by
  decide

/-- C2 (amended): `earnPoints` prepends exactly one new transaction carrying
the payload type and points, leaves the previous transactions unchanged in
order, and adds the payload points to the total; the recorded description is
the supplied description when it is present and non-empty, and the payload
type when it is absent or empty.  The operation is a total function of the
state and payload: it has no failure mode and validates nothing. -/
theorem c2_earn_effect (state : LoyaltyState) (payload : EarnPayload)
    (now : Nat) :
    ∃ tx : Transaction,
      (earnPoints state payload now).transactions = tx :: state.transactions ∧
      (earnPoints state payload now).transactions.length =
        state.transactions.length + 1 ∧
      (earnPoints state payload now).points = state.points + payload.points ∧
      tx.type = payload.type ∧ tx.points = payload.points ∧
      (∀ d, payload.description = some d → d ≠ emptyStr →
        tx.description = d) ∧
      ((payload.description = none ∨ payload.description = some emptyStr) →
        tx.description = payload.type) := by
  refine ⟨_, rfl, by simp [earnPoints], rfl, rfl, rfl, ?_, ?_⟩
  · intro d hd hne
    simp [earnPoints, descOrType, hd, hne]
  · intro hcase
    cases hcase with
    | inl hnone => simp [earnPoints, descOrType, hnone]
    | inr hempty => simp [earnPoints, descOrType, hempty]

/-- Witness for C2 (amended) at a concrete state and payload. -/
theorem c2_earn_effect_witness :
    ∃ tx : Transaction,
      (earnPoints sampleLoyalty loginPayload 3).transactions =
        tx :: sampleLoyalty.transactions ∧
      (earnPoints sampleLoyalty loginPayload 3).transactions.length =
        sampleLoyalty.transactions.length + 1 ∧
      (earnPoints sampleLoyalty loginPayload 3).points =
        sampleLoyalty.points + loginPayload.points ∧
      tx.type = loginPayload.type ∧ tx.points = loginPayload.points ∧
      (∀ d, loginPayload.description = some d → d ≠ emptyStr →
        tx.description = d) ∧
      ((loginPayload.description = none ∨
          loginPayload.description = some emptyStr) →
        tx.description = loginPayload.type) :=
  c2_earn_effect sampleLoyalty loginPayload 3

/-- C3: hydration replaces the ledger wholesale with the payload, for every
prior state, without re-deriving the total from the history; in particular
hydrating `42` with the one sample transaction yields total `42` even though
`42` is not the sum over the history. -/
theorem c3_hydrate_trusts_input :
    (∀ s p : LoyaltyState, setLoyaltyData s p = p) ∧
      setLoyaltyData sampleLoyalty { points := 42, transactions := [sampleTx] }
          = { points := 42, transactions := [sampleTx] } ∧
      ¬ sumInv { points := 42, transactions := [sampleTx] } := by
  exact ⟨fun s p => rfl, rfl, by decide⟩

/-! ## Lemmas: ids of an all-earn run are the rendered timestamps -/

theorem foldl_earn_ids (acts : List LoyaltyAction) :
    ∀ s : LoyaltyState, acts.all isEarn = true →
      (acts.foldl applyAction s).transactions.map Transaction.id =
        ((earnTimes acts).map Nat.repr).reverse ++
          s.transactions.map Transaction.id := by
  induction acts with
  | nil => intro s _; simp [earnTimes]
  | cons a rest ih =>
    intro s hall
    rw [List.all_cons, Bool.and_eq_true] at hall
    cases a with
    | earn payload now =>
      rw [List.foldl_cons]
      rw [ih _ hall.2]
      simp [earnTimes, applyAction, earnPoints, List.reverse_cons,
        List.append_assoc]
    | hydrate payload => simp [isEarn] at hall
    | reset => simp [isEarn] at hall

/-- C7 as stated fails when two `earnPoints` dispatches happen in the same
millisecond: both transactions get the id `Date.now().toString()` of that
same millisecond. -/
theorem c7_counterexample : ¬ idsDistinct (runActions clashActs) := by
  decide

/-- C7 (amended): transaction ids are the rendered dispatch timestamps, so
in every all-earn sequence whose dispatch timestamps are pairwise distinct,
any two distinct transactions in the resulting history have different ids;
two earns in the same millisecond collide. -/
theorem c7_ids_distinct (acts : List LoyaltyAction)
    (h1 : acts.all isEarn = true) (h2 : (earnTimes acts).Nodup) :
    idsDistinct (runActions acts) := by
  have hids := foldl_earn_ids acts loyaltyInitialState h1
  have hnodup :
      ((runActions acts).transactions.map Transaction.id).Nodup := by
    rw [runActions, hids]
    simp only [loyaltyInitialState, List.map_nil, List.append_nil]
    exact List.nodup_reverse.mpr (h2.map repr_injective)
  unfold idsDistinct
  exact List.pairwise_map.mp hnodup

/-- Witness for C7 (amended) at two earns with distinct timestamps. -/
theorem c7_ids_distinct_witness :
    (wEarnActs.all isEarn = true ∧ (earnTimes wEarnActs).Nodup) ∧
      idsDistinct (runActions wEarnActs) :=
  ⟨⟨by decide, by decide⟩, c7_ids_distinct wEarnActs (by decide) (by decide)⟩

/-- C4: the claim is violated by the code: `logoutUser` removes only the
auth-token and user-data keys and no `resetLoyalty` is ever dispatched, so
after a logout the in-memory ledger is unchanged (and non-empty here) and the
persisted loyalty key still holds its snapshot. -/
theorem c4_logout_keeps_loyalty :
    (logoutUser sampleStorage sampleAuth sampleLoyalty).1 loyaltyDataKey
        = some sampleLoyaltyJson ∧
      (logoutUser sampleStorage sampleAuth sampleLoyalty).2.2 =
        sampleLoyalty ∧
      sampleLoyalty ≠ loyaltyInitialState := by
  exact ⟨by decide, rfl, by decide⟩

/-- C5: unfavoriting dispatches no ledger mutation (the loyalty state is
untouched and the list of dispatched earns is empty), and the
favorite-then-unfavorite scenario performs exactly one earn in total, from
the favoriting. -/
theorem c5_unfavorite_no_ledger_mutation :
    (∀ (st : AppState) (product : Product) (now : Nat),
        isFavorite st.favorites product = true →
          (handleToggleFavorite st product now).1.loyalty = st.loyalty ∧
          (handleToggleFavorite st product now).2 = []) ∧
      (∀ (st : AppState) (product : Product) (t1 t2 : Nat),
          isFavorite st.favorites product = false →
            (handleToggleFavorite st product t1).2 = [favPayload product] ∧
            (handleToggleFavorite
                (handleToggleFavorite st product t1).1 product t2).2 = [] ∧
            (handleToggleFavorite
                (handleToggleFavorite st product t1).1 product t2).1.loyalty =
              earnPoints st.loyalty (favPayload product) t1) := by
  constructor
  · intro st product now hfav
    simp [handleToggleFavorite, hfav]
  · intro st product t1 t2 hfav
    have hfind :
        st.favorites.find? (fun item => item.id == product.id) = none := by
      rw [List.find?_eq_none]
      simp only [isFavorite, List.any_eq_false] at hfav
      exact hfav
    have hadd : addFavorite st.favorites product =
        st.favorites ++ [product] := by
      unfold addFavorite
      rw [hfind]
    have hfav2 : isFavorite (st.favorites ++ [product]) product = true := by
      simp [isFavorite]
    refine ⟨by simp [handleToggleFavorite, hfav], ?_, ?_⟩
    · simp [handleToggleFavorite, hfav, hadd, hfav2]
    · simp [handleToggleFavorite, hfav, hadd, hfav2]

/-- Witness for C5 at a favorited state and at a not-favorited state. -/
theorem c5_unfavorite_no_ledger_mutation_witness :
    (isFavorite favState.favorites sampleProduct = true ∧
      (handleToggleFavorite favState sampleProduct 2).1.loyalty =
        favState.loyalty ∧
      (handleToggleFavorite favState sampleProduct 2).2 = []) ∧
    (isFavorite noFavState.favorites sampleProduct = false ∧
      (handleToggleFavorite noFavState sampleProduct 3).2 =
        [favPayload sampleProduct] ∧
      (handleToggleFavorite
          (handleToggleFavorite noFavState sampleProduct 3).1
          sampleProduct 4).2 = [] ∧
      (handleToggleFavorite
          (handleToggleFavorite noFavState sampleProduct 3).1
          sampleProduct 4).1.loyalty =
        earnPoints noFavState.loyalty (favPayload sampleProduct) 3) :=
  ⟨⟨by decide,
      c5_unfavorite_no_ledger_mutation.1 favState sampleProduct 2 (by decide)⟩,
    ⟨by decide,
      c5_unfavorite_no_ledger_mutation.2 noFavState sampleProduct 3 4
        (by decide)⟩⟩

/-- C6 as stated fails on the login path: with a previously hydrated
non-empty ledger, the snapshot `handleLogin` writes is the fixed one-entry
login snapshot, not the post-earn in-memory state. -/
theorem c6_counterexample :
    (handleLogin priorLoyalty emptyStorage true constStringify 0 0).1 ≠
      loginSnapshot 0 := by
  decide

/-- A favorited-product description is never the empty string. -/
theorem favDesc_ne_empty (s : String) : favoritedTag ++ s ≠ emptyStr := by
  intro h
  have hlen := congrArg String.length h
  rw [String.length_append] at hlen
  have h1 : favoritedTag.length = 11 := by decide
  have h2 : emptyStr.length = 0 := by decide
  omega

/-- C6 (amended): the snapshot the favorite path passes to `saveLoyaltyData`
equals the post-earn in-memory ledger — prior transactions included —
provided the regenerated transaction is stamped with the same millisecond as
the dispatched one; the snapshot the login path writes is the fixed one-entry
login snapshot, which equals the post-earn in-memory state exactly when the
ledger was empty before the earn. -/
theorem c6_snapshot_matches :
    (∀ (loyalty : LoyaltyState) (product : Product) (now : Nat),
        favSnapshot loyalty product now =
          earnPoints loyalty (favPayload product) now) ∧
      (∀ now : Nat,
        loginSnapshot now = earnPoints loyaltyInitialState loginPayload now) := by
  constructor
  · intro loyalty product now
    simp [favSnapshot, earnPoints, favPayload, descOrType,
      favDesc_ne_empty product.title]
  · intro now
    have hne : loginBonusDesc ≠ emptyStr := by decide
    simp [loginSnapshot, earnPoints, loginPayload, descOrType, hne,
      loyaltyInitialState]

/-- C8: a failed or empty read and an unparseable snapshot all hydrate to
the default empty ledger, and a failed write leaves the store exactly as it
was; neither helper signals an error to its caller (both are total), and
neither touches the in-memory ledger. -/
theorem c8_storage_failures_swallowed :
    (∀ parse, loadLoyaltyData (Except.error ()) parse = loyaltyInitialState) ∧
      (∀ parse, loadLoyaltyData (Except.ok none) parse =
        loyaltyInitialState) ∧
      (∀ (json : String) (parse : String → Except Unit LoyaltyState),
          parse json = Except.error () →
            loadLoyaltyData (Except.ok (some json)) parse =
              loyaltyInitialState) ∧
      (∀ (st : Storage) (stringify : LoyaltyState → String)
          (data : LoyaltyState),
          saveLoyaltyData st false stringify data = st) := by
  refine ⟨fun _ => rfl, fun _ => rfl, ?_, fun _ _ _ => rfl⟩
  intro json parse hp
  unfold loadLoyaltyData
  by_cases hj : json = emptyStr
  · simp [hj]
  · simp [hj, hp]

/-- Witness for C8 at a concrete failing parser. -/
theorem c8_storage_failures_swallowed_witness :
    failParse sampleLoyaltyJson = Except.error () ∧
      loadLoyaltyData (Except.ok (some sampleLoyaltyJson)) failParse =
        loyaltyInitialState :=
  ⟨rfl, c8_storage_failures_swallowed.2.2.1 sampleLoyaltyJson failParse rfl⟩

/-- C9: `filterProducts` computes `filteredItems` as the order-preserving
filter of `items` by the conjunction of the category test (passed when the
selected category is `all`) and the case-insensitive title-substring test
(passed when the trimmed query is empty); with `all` and a blank query the
result is `items` itself. -/
theorem c9_filter_clientside (st : ProductsState) :
    (filterProducts st).filteredItems = st.items.filter (filterPred st) ∧
      (st.selectedCategory = categoryAll → jsTrim st.searchQuery = emptyStr →
        (filterProducts st).filteredItems = st.items) := by
  have hmain : (filterProducts st).filteredItems =
      st.items.filter (filterPred st) := by
    unfold filterProducts filterPred
    by_cases hc : st.selectedCategory = categoryAll <;>
      by_cases hq : jsTrim st.searchQuery = emptyStr
    · have hcb : (st.selectedCategory == categoryAll) = true := by
        simp [hc]
      have hqb : (jsTrim st.searchQuery == emptyStr) = true := by simp [hq]
      simp [hc, hq, hcb, hqb]
    · have hcb : (st.selectedCategory == categoryAll) = true := by
        simp [hc]
      have hqb : (jsTrim st.searchQuery == emptyStr) = false := by simp [hq]
      simp [hc, hq, hcb, hqb]
    · have hcb : (st.selectedCategory == categoryAll) = false := by
        simp [hc]
      have hqb : (jsTrim st.searchQuery == emptyStr) = true := by simp [hq]
      simp [hc, hq, hcb, hqb]
    · have hcb : (st.selectedCategory == categoryAll) = false := by
        simp [hc]
      have hqb : (jsTrim st.searchQuery == emptyStr) = false := by simp [hq]
      simp [hc, hq, hcb, hqb, List.filter_filter, Bool.and_comm]
  refine ⟨hmain, fun hc hq => ?_⟩
  rw [hmain]
  have hcb : (st.selectedCategory == categoryAll) = true := by simp [hc]
  have hqb : (jsTrim st.searchQuery == emptyStr) = true := by simp [hq]
  simp [filterPred, hcb, hqb]

/-- Witness for C9 at a concrete two-product state with an all-pass filter. -/
theorem c9_filter_clientside_witness :
    ((filterProducts sampleProductsState).filteredItems =
        sampleProductsState.items.filter (filterPred sampleProductsState)) ∧
      (sampleProductsState.selectedCategory = categoryAll ∧
        jsTrim sampleProductsState.searchQuery = emptyStr ∧
        (filterProducts sampleProductsState).filteredItems =
          sampleProductsState.items) :=
  ⟨(c9_filter_clientside sampleProductsState).1,
    by decide, by decide,
    (c9_filter_clientside sampleProductsState).2 (by decide) (by decide)⟩

/-- C10: a payload whose description is the empty string (supplied, not
absent) records the payload type as the transaction description: the default
applies to any falsy description. -/
theorem c10_empty_description_defaults (state : LoyaltyState) (ty : String)
    (p : Int) (now : Nat) :
    ∃ tx : Transaction,
      (earnPoints state { type := ty, points := p, description := some emptyStr }
        now).transactions = tx :: state.transactions ∧
      tx.description = ty := by
  refine ⟨_, rfl, ?_⟩
  simp [descOrType]

end RewardLoop
